import Mathlib

/-!
# SuperPi digit-computation engine: a shallow embedding

This file embeds the core of the SuperPi repository (two C programs,
`superpi.c` with a Machin-formula series kernel and `src/superpi.c` with a
Gauss-Legendre iterative kernel, both exposing
`uint64_t calculate_pi_digits(uint64_t digits, char **result)`)
and settles the frozen claims about it.

Modelling conventions:

* GMP arbitrary-precision floats (`mpf_t`) are modelled as exact numbers:
  rationals `ℚ` for the series kernel (whose operations are field operations)
  and reals `ℝ` for the iterative kernel (which uses `mpf_sqrt`).  The C code
  configures a working precision of `digits * 3.322 + 10000` bits (at least
  10003 bits), so every `mpf` rounding error is below `2 ^ (-10000)`, which is
  far below every digit position examined by the claims; the exact model is
  the idealisation of that arithmetic.
* The C double literals `3.322` and `1e-50` denote IEEE-754 doubles, not the
  decimal values; they are modelled by their exact values
  (`3740239490531197 / 2^50` and `8424983333484575 / 2^219`).  For the
  precision formula `digits * 3.322 + 10000`, evaluated in double arithmetic
  and truncated to an unsigned integer, the result equals
  `digits * 3322 / 1000 + 10000` (integer division) for every
  `digits ≤ 10^7`: the double nearest `3.322` exceeds `3322/1000` by
  `e = 0.144/2^51 < 6.4e-17`, products `digits * 3.322` stay below `2^26`
  where one ulp is `2^-27`, and the fractional part of `digits * 3322/1000`
  is either `0` (then `digits * e < ulp/2` rounds away exactly) or at least
  `1/1000` (far above all accumulated rounding), so the floor is unaffected.
* `gmp_snprintf(buf, digits+10, "%.*Ff", (int)digits+1, pi)` is modelled as
  rendering `⌊v * 10^(digits+1) + 1/2⌋` (round to nearest) as
  `<integer part> '.' <digits+1 fractional digits>`.  Every property proved
  below about concrete digit strings has been checked to be insensitive to
  the exact rounding mode of the final (discarded) rendered digit.
* The C functions return `0` on failure and communicate the digit string
  through an out-pointer; this is modelled by a result record that also
  tracks, for the resource claims, the configured precision and the names of
  the `mpf_t` variables that were initialised (`mpf_init`) and cleared
  (`mpf_clear`) during the call, and, for the cancellation claim, the value
  of the global `keep_running` flag (which only `src/superpi.c` has).
-/

/-- Upper bound on the requested digit count, `#define MAX_DIGITS 10000000`
(identical in both programs). -/
def MAX_DIGITS : ℕ := 10000000

/-- Working precision in bits configured by
`mpf_set_default_prec(digits * 3.322 + 10000)`.  As explained in the header,
for every valid `digits` the double-precision computation followed by the
conversion to `mp_bitcnt_t` yields exactly `digits * 3322 / 1000 + 10000`. -/
def precBits (digits : ℕ) : ℕ := digits * 3322 / 1000 + 10000

namespace Machin

/-- One pass of the Taylor-series summation loop of `superpi.c`
(lines 175-189 and 200-214):

```
for (unsigned long int i = 0; i < (digits + 1000); i++) {
    mpf_div_ui(temp, x_pow, 2*i + 1);
    if (i % 2 == 0) mpf_add(sum, sum, temp); else mpf_sub(sum, sum, temp);
    mpf_mul(temp, x_pow, x);
    mpf_mul(x_pow, temp, x);
}
```

`r` is the number of remaining iterations, `i` the loop counter, `sum` and
`pow` the values of `sum` and `x_pow`. -/
def seriesLoop (x : ℚ) : ℕ → ℕ → ℚ → ℚ → ℚ
  | 0, _, sum, _ => sum
  | r + 1, i, sum, pow =>
      seriesLoop x r (i + 1)
        (if i % 2 = 0 then sum + pow / ((2 * i + 1 : ℕ) : ℚ)
         else sum - pow / ((2 * i + 1 : ℕ) : ℚ))
        (pow * x * x)

/-- The series summation as called by the program: `sum` starts at `0`,
`x_pow` starts at `x`, and the loop runs `n` times. -/
def arctanLoop (x : ℚ) (n : ℕ) : ℚ := seriesLoop x n 0 0 x

/-- The value held in `pi` after the two series evaluations of
`superpi.c` (lines 159-220): `x1 = 1/5`, `x2 = 1/239`, each summed for
`digits + 1000` iterations, then `term1 = 4 * arctan(1/5)`,
`term2 = arctan(1/239)`, `pi = 4 * (term1 - term2)`. -/
def piValue (digits : ℕ) : ℚ :=
  let x1 : ℚ := 1 / 5
  let x2 : ℚ := 1 / 239
  let term1 := 4 * arctanLoop x1 (digits + 1000)
  let term2 := arctanLoop x2 (digits + 1000)
  4 * (term1 - term2)

end Machin

/-- The Taylor expansion of `arctan` truncated to `n` terms, as the
specification describes it: `arctan(x) = Σ (−1)^i x^(2i+1)/(2i+1)`.
This definition follows the spec wording; the claims compare it with the
operational loop above. -/
def taylorArctan (x : ℚ) (n : ℕ) : ℚ :=
  (Finset.range n).sum fun i => (-1) ^ i * x ^ (2 * i + 1) / ((2 * i + 1 : ℕ) : ℚ)

/-- ASCII decimal digit character for `d < 10`. -/
def decDigit (d : ℕ) : Char := Char.ofNat (48 + d)

/-- Fuel-driven most-significant-first decimal digit expansion. -/
def natDigitsAux : ℕ → ℕ → List Char
  | 0, _ => []
  | fuel + 1, n =>
      if n < 10 then [decDigit n]
      else natDigitsAux fuel (n / 10) ++ [decDigit (n % 10)]

/-- Decimal digit characters of `n`, most significant first (never empty:
`natToDigitChars 0 = ['0']`). -/
def natToDigitChars (n : ℕ) : List Char := natDigitsAux (n + 1) n

/-- Tail-recursive variant of `natDigitsAux` with an explicit accumulator.
It is a proof-side device only (the rendering model is `natToDigitChars`):
evaluating the accumulator form inside the kernel is linear in the number of
digits, while evaluating the append form is quadratic, which matters for the
concrete 100-digit computations below. -/
def natDigitsAcc : ℕ → ℕ → List Char → List Char
  | 0, _, acc => acc
  | fuel + 1, n, acc =>
      if n < 10 then decDigit n :: acc
      else natDigitsAcc fuel (n / 10) (decDigit (n % 10) :: acc)

/-- Left-pad a character list with `'0'` up to length `len`. -/
def padLeftZeros (s : List Char) (len : ℕ) : List Char :=
  List.replicate (len - s.length) '0' ++ s

/-- Decimal rendering of the nonnegative integer `n / 10^p` with exactly `p`
fractional digits: integer part, `'.'`, then `p` zero-padded digits. -/
def renderChars (n : ℕ) (p : ℕ) : List Char :=
  natToDigitChars (n / 10 ^ p) ++ '.' :: padLeftZeros (natToDigitChars (n % 10 ^ p)) p

/-- Model of `gmp_snprintf(buf, ..., "%.*Ff", (int)p, v)` for a nonnegative
rational `v`: round `v` to `p` fractional digits and render. -/
def renderFfQ (v : ℚ) (p : ℕ) : List Char :=
  renderChars (Int.toNat ⌊v * 10 ^ p + 1 / 2⌋) p

/-- Model of the post-processing in `calculate_pi_digits`
(`strchr(*result, '.')`, `memmove(*result, dot + 1, strlen(dot))`,
`(*result)[digits] = '\0'`): if a dot is present, drop everything up to and
including it and truncate to `digits` characters; otherwise leave the string
unchanged. -/
def extractFromChars (s : List Char) (digits : ℕ) : List Char :=
  let tail := s.dropWhile fun c => c ≠ '.'
  if tail = [] then s else (tail.drop 1).take digits

/-- Observable outcome of one `calculate_pi_digits` call: the returned
count, the digit string delivered through the out-pointer (`none` when the
function returns without storing a fresh string), the precision configured
via `mpf_set_default_prec` (`none` when it is never called), and the names
of the `mpf_t` variables passed to `mpf_init` and to `mpf_clear`. -/
structure CallResult where
  ret : ℕ
  output : Option (List Char)
  precSet : Option ℕ
  inited : List String
  cleared : List String

namespace Machin

/-- The nine `mpf_t` locals of the series variant, in initialisation order. -/
def mpfVars : List String :=
  ["pi", "term1", "term2", "sum", "x1", "x2", "x1_pow", "x2_pow", "temp"]

/-- Shallow embedding of `calculate_pi_digits` of `superpi.c`
(lines 134-267).  `resultValid` models `result != NULL`; `mallocOk` models
whether `malloc(digits + 10)` succeeds at the extraction step. -/
def calculate_pi_digits (resultValid mallocOk : Bool) (digits : ℕ) : CallResult :=
  if resultValid = false ∨ digits = 0 ∨ MAX_DIGITS < digits then
    { ret := 0, output := none, precSet := none, inited := [], cleared := [] }
  else if mallocOk = false then
    { ret := 0, output := none, precSet := some (precBits digits),
      inited := mpfVars, cleared := mpfVars }
  else
    { ret := digits,
      output := some (extractFromChars (renderFfQ (piValue digits) (digits + 1)) digits),
      precSet := some (precBits digits),
      inited := mpfVars, cleared := mpfVars }

end Machin

namespace Gauss

/-- Loop state of the Gauss-Legendre kernel of `src/superpi.c`: the values of
the `mpf_t` variables `a`, `b`, `t`, `p` after an update round has been
committed. -/
structure State where
  a : ℝ
  b : ℝ
  t : ℝ
  p : ℝ

/-- Initial values set at lines 276-282: `a0 = 1`, `b0 = sqrt(2)/2`
(computed as `mpf_sqrt` of `2` then division by `2`), `p0 = 1`,
`t0 = 0.25` (the double `0.25` is exact). -/
noncomputable def init : State :=
  { a := 1, b := Real.sqrt 2 / 2, t := 1 / 4, p := 1 }

/-- One full round of the `while (1)` loop (lines 289-348), mirroring the
in-place `temp1`/`temp2` sequence.  `a`, `b`, `t` are committed by the
`mpf_set` calls at lines 345-347; `p` is doubled in place at line 308, so it
is committed even in the round that breaks out of the loop (the final value
of π does not read `p`). -/
noncomputable def step (s : State) : State :=
  let temp1 := s.a + s.b
  let a_next := temp1 / 2
  let temp1 := s.a * s.b
  let b_next := Real.sqrt temp1
  let temp1 := a_next - s.a
  let temp2 := temp1 * temp1
  let temp1 := s.p * temp2
  let t_next := s.t - temp1
  let p := s.p * 2
  { a := a_next, b := b_next, t := t_next, p := p }

/-- State after `n` committed rounds. -/
noncomputable def state (n : ℕ) : State := step^[n] init

/-- Value of the loop variable `a` after `n` committed rounds. -/
noncomputable def a (n : ℕ) : ℝ := (state n).a

/-- Value of the loop variable `b` after `n` committed rounds. -/
noncomputable def b (n : ℕ) : ℝ := (state n).b

/-- Value of the loop variable `t` after `n` committed rounds. -/
noncomputable def t (n : ℕ) : ℝ := (state n).t

/-- Value of the loop variable `p` after `n` committed rounds. -/
noncomputable def p (n : ℕ) : ℝ := (state n).p

/-- The comparison threshold of `mpf_cmp_d(temp1, 1e-50)` at line 315: the
IEEE-754 double denoted by the literal `1e-50`, which is exactly
`8424983333484575 / 2^219` (slightly above `10^(-50)`). -/
noncomputable def cmpThreshold : ℝ := 8424983333484575 / 2 ^ 219

/-- Number of committed rounds when the loop exits: the loop breaks in round
`n + 1`, before committing `a_next`, `b_next`, `t_next`, as soon as the
freshly computed pair satisfies `|a_next - b_next| < cmpThreshold`.  The
loop has no round limit; its denotation is this hitting index. -/
noncomputable def stopIndex : ℕ := sInf { n : ℕ | |a (n + 1) - b (n + 1)| < cmpThreshold }

/-- The value computed into `pi` at lines 350-354 once the loop has exited:
`(a + b)^2 / (4*t)` evaluated on the loop variables left by the last
committed round. -/
noncomputable def piValue : ℝ :=
  (a stopIndex + b stopIndex) ^ 2 / (4 * t stopIndex)

/-- The ten `mpf_t` locals of the iterative variant, in initialisation
order. -/
def mpfVars : List String :=
  ["a", "b", "t", "p", "a_next", "b_next", "t_next", "pi", "temp1", "temp2"]

end Gauss

/-- Model of `gmp_snprintf(buf, ..., "%.*Ff", (int)p, v)` for a nonnegative
real `v`, as in `renderFfQ`. -/
noncomputable def renderFfR (v : ℝ) (p : ℕ) : List Char :=
  renderChars (Int.toNat ⌊v * 10 ^ p + 1 / 2⌋) p

namespace Gauss

/-- Shallow embedding of `calculate_pi_digits` of `src/superpi.c`
(lines 247-403).  `keepRunning` is the value of the global flag
`keep_running` (set to `0` by `signal_handler` on `SIGINT`); the function
body never reads it, which is why the parameter is unused.  `resultValid`
models `result != NULL`; `mallocOk` models whether `malloc(digits + 10)`
succeeds at the extraction step. -/
noncomputable def calculate_pi_digits (keepRunning resultValid mallocOk : Bool)
    (digits : ℕ) : CallResult :=
  if resultValid = false ∨ digits = 0 ∨ MAX_DIGITS < digits then
    { ret := 0, output := none, precSet := none, inited := [], cleared := [] }
  else if mallocOk = false then
    { ret := 0, output := none, precSet := some (precBits digits),
      inited := mpfVars, cleared := mpfVars }
  else
    { ret := digits,
      output := some (extractFromChars (renderFfR piValue (digits + 1)) digits),
      precSet := some (precBits digits),
      inited := mpfVars, cleared := mpfVars }

end Gauss

/-- Model of `signal_handler` of `src/superpi.c` (lines 43-48): on `SIGINT`
(signal number 2) it clears the global `keep_running` flag; other signals
leave it unchanged. -/
def signal_handler (sig : ℕ) (keepRunning : Bool) : Bool :=
  if sig = 2 then false else keepRunning

namespace Gauss

theorem state_succ (n : ℕ) : state (n + 1) = step (state n) :=
  Function.iterate_succ_apply' step n init

theorem a_succ (n : ℕ) : a (n + 1) = (a n + b n) / 2 := by
  simp [a, state_succ, step, b]

theorem b_succ (n : ℕ) : b (n + 1) = Real.sqrt (a n * b n) := by
  simp [b, state_succ, step, a]

theorem t_succ (n : ℕ) :
    t (n + 1) = t n - p n * ((a n + b n) / 2 - a n) * ((a n + b n) / 2 - a n) := by
  simp [t, state_succ, step, a, b, p]; ring

theorem p_succ (n : ℕ) : p (n + 1) = p n * 2 := by
  simp [p, state_succ, step]

theorem a_zero : a 0 = 1 := rfl

theorem b_zero : b 0 = Real.sqrt 2 / 2 := rfl

theorem t_zero : t 0 = 1 / 4 := rfl

theorem p_zero : p 0 = 1 := rfl

theorem p_eq (n : ℕ) : p n = 2 ^ n := by
  induction n with
  | zero => simp [p_zero]
  | succ k ih => rw [p_succ, ih]; ring

end Gauss

theorem sqrt_mul_le_add_div_two {x y : ℝ} (hx : 0 ≤ x) (hy : 0 ≤ y) :
    Real.sqrt (x * y) ≤ (x + y) / 2 := by
  rw [Real.sqrt_mul hx]
  nlinarith [Real.sq_sqrt hx, Real.sq_sqrt hy, Real.sqrt_nonneg x, Real.sqrt_nonneg y,
    sq_nonneg (Real.sqrt x - Real.sqrt y)]

namespace Gauss

/-- Certified enclosure of the loop state after `n` committed rounds: all
bounds are integers scaled by `10^118` for `a` and `b`, and by `4 * 10^236`
for `t`. -/
def inBox (n : ℕ) (al ah bl bh tl th : ℤ) : Prop :=
  (al : ℝ) ≤ 10 ^ 118 * a n ∧ 10 ^ 118 * a n ≤ (ah : ℝ) ∧
  (bl : ℝ) ≤ 10 ^ 118 * b n ∧ 10 ^ 118 * b n ≤ (bh : ℝ) ∧
  (tl : ℝ) ≤ 4 * 10 ^ 236 * t n ∧ 4 * 10 ^ 236 * t n ≤ (th : ℝ)

theorem inBox_step {n : ℕ} {al ah bl bh tl th nal nah nbl nbh ntl nth : ℤ}
    (h : inBox n al ah bl bh tl th)
    (hbl : 0 < bl) (hba : bh ≤ al)
    (c1 : 2 * nal ≤ al + bl) (c2 : ah + bh ≤ 2 * nah)
    (c3 : 0 ≤ nbl) (c4 : nbl ^ 2 ≤ al * bl) (c5 : ah * bh ≤ nbh ^ 2) (c6 : 0 ≤ nbh)
    (c7 : ntl ≤ tl - 2 ^ n * (ah - bl) ^ 2) (c8 : th - 2 ^ n * (al - bh) ^ 2 ≤ nth) :
    inBox (n + 1) nal nah nbl nbh ntl nth := by
  obtain ⟨ha1, ha2, hb1, hb2, ht1, ht2⟩ := h
  have hbl' : (0 : ℝ) < bl := by exact_mod_cast hbl
  have hba' : (bh : ℝ) ≤ al := by exact_mod_cast hba
  have c1' : 2 * (nal : ℝ) ≤ al + bl := by exact_mod_cast c1
  have c2' : (ah : ℝ) + bh ≤ 2 * nah := by exact_mod_cast c2
  have c3' : (0 : ℝ) ≤ nbl := by exact_mod_cast c3
  have c4' : (nbl : ℝ) ^ 2 ≤ al * bl := by exact_mod_cast c4
  have c5' : (ah : ℝ) * bh ≤ (nbh : ℝ) ^ 2 := by exact_mod_cast c5
  have c6' : (0 : ℝ) ≤ nbh := by exact_mod_cast c6
  have c7' : (ntl : ℝ) ≤ tl - 2 ^ n * ((ah : ℝ) - bl) ^ 2 := by exact_mod_cast c7
  have c8' : (th : ℝ) - 2 ^ n * ((al : ℝ) - bh) ^ 2 ≤ nth := by exact_mod_cast c8
  have hblbh : (bl : ℝ) ≤ bh := le_trans hb1 hb2
  have hX0 : (0 : ℝ) ≤ 10 ^ 118 * a n := le_trans (le_of_lt (lt_of_lt_of_le hbl' (le_trans hblbh hba'))) ha1
  have hY0 : (0 : ℝ) ≤ 10 ^ 118 * b n := le_trans (le_of_lt hbl') hb1
  have hXY : (nbl : ℝ) ^ 2 ≤ (10 ^ 118 * a n) * (10 ^ 118 * b n) := by
    refine le_trans c4' (mul_le_mul ha1 hb1 (le_of_lt hbl') hX0)
  have hXY2 : (10 ^ 118 * a n) * (10 ^ 118 * b n) ≤ (nbh : ℝ) ^ 2 := by
    refine le_trans (mul_le_mul ha2 hb2 hY0 (le_trans hX0 ha2)) c5'
  have hsq : (10 : ℝ) ^ 118 * Real.sqrt (a n * b n) =
      Real.sqrt ((10 ^ 118 * a n) * (10 ^ 118 * b n)) := by
    rw [show (10 ^ 118 * a n) * (10 ^ 118 * b n) = ((10 : ℝ) ^ 118) ^ 2 * (a n * b n) by ring,
      Real.sqrt_mul (show (0 : ℝ) ≤ ((10 : ℝ) ^ 118) ^ 2 by positivity) (a n * b n),
      Real.sqrt_sq (show (0 : ℝ) ≤ (10 : ℝ) ^ 118 by positivity)]
  have hdlo : (al : ℝ) - bh ≤ 10 ^ 118 * a n - 10 ^ 118 * b n := by linarith
  have hdhi : 10 ^ 118 * a n - 10 ^ 118 * b n ≤ (ah : ℝ) - bl := by linarith
  have hd0 : (0 : ℝ) ≤ (al : ℝ) - bh := by linarith
  have hsqlo : ((al : ℝ) - bh) ^ 2 ≤ (10 ^ 118 * a n - 10 ^ 118 * b n) ^ 2 :=
    pow_le_pow_left₀ hd0 hdlo 2
  have hsqhi : (10 ^ 118 * a n - 10 ^ 118 * b n) ^ 2 ≤ ((ah : ℝ) - bl) ^ 2 :=
    pow_le_pow_left₀ (by linarith) hdhi 2
  have hp2 : (0 : ℝ) ≤ 2 ^ n := by positivity
  refine ⟨?_, ?_, ?_, ?_, ?_, ?_⟩
  · rw [a_succ]; linarith
  · rw [a_succ]; linarith
  · rw [b_succ, hsq]
    exact Real.le_sqrt_of_sq_le hXY
  · rw [b_succ, hsq]
    exact Real.sqrt_le_iff.mpr ⟨c6', hXY2⟩
  · rw [t_succ, p_eq]
    have hmul : (2 : ℝ) ^ n * (10 ^ 118 * a n - 10 ^ 118 * b n) ^ 2 ≤
        2 ^ n * ((ah : ℝ) - bl) ^ 2 := mul_le_mul_of_nonneg_left hsqhi hp2
    have hid : 4 * (10 : ℝ) ^ 236 *
        (t n - 2 ^ n * ((a n + b n) / 2 - a n) * ((a n + b n) / 2 - a n)) =
        4 * 10 ^ 236 * t n - 2 ^ n * (10 ^ 118 * a n - 10 ^ 118 * b n) ^ 2 := by ring
    linarith [hid, hmul, ht1, c7']
  · rw [t_succ, p_eq]
    have hmul : (2 : ℝ) ^ n * ((al : ℝ) - bh) ^ 2 ≤
        2 ^ n * (10 ^ 118 * a n - 10 ^ 118 * b n) ^ 2 := mul_le_mul_of_nonneg_left hsqlo hp2
    have hid : 4 * (10 : ℝ) ^ 236 *
        (t n - 2 ^ n * ((a n + b n) / 2 - a n) * ((a n + b n) / 2 - a n)) =
        4 * 10 ^ 236 * t n - 2 ^ n * (10 ^ 118 * a n - 10 ^ 118 * b n) ^ 2 := by ring
    linarith [hid, hmul, ht2, c8']

end Gauss
namespace Gauss

theorem inBox_zero :
    inBox 0 (10 ^ 118) (10 ^ 118) 7071067811865475244008443621048490392848359376884740365883398689953662392310535194251937671638207863675069231154561485 7071067811865475244008443621048490392848359376884740365883398689953662392310535194251937671638207863675069231154561486 (10 ^ 236) (10 ^ 236) := by
  have h2 : (10 : ℝ) ^ 118 * (Real.sqrt 2 / 2) = Real.sqrt (2 * 10 ^ 236) / 2 := by
    rw [show (2 : ℝ) * 10 ^ 236 = 2 * ((10 : ℝ) ^ 118) ^ 2 by ring,
      Real.sqrt_mul (by norm_num : (0 : ℝ) ≤ 2) (((10 : ℝ) ^ 118) ^ 2),
      Real.sqrt_sq (show (0 : ℝ) ≤ (10 : ℝ) ^ 118 by positivity)]
    ring
  refine ⟨?_, ?_, ?_, ?_, ?_, ?_⟩
  · rw [a_zero]; norm_num
  · rw [a_zero]; norm_num
  · rw [b_zero, h2, le_div_iff (by norm_num : (0 : ℝ) < 2)]
    exact Real.le_sqrt_of_sq_le (by norm_num)
  · rw [b_zero, h2, div_le_iff (by norm_num : (0 : ℝ) < 2)]
    exact Real.sqrt_le_iff.mpr ⟨by norm_num, by norm_num⟩
  · rw [t_zero]; norm_num
  · rw [t_zero]; norm_num

theorem inBox_1 :
    inBox 1
      8535533905932737622004221810524245196424179688442370182941699344976831196155267597125968835819103931837534615577280742
      8535533905932737622004221810524245196424179688442370182941699344976831196155267597125968835819103931837534615577280743
      8408964152537145430311254762332148950400342623567845108132260859749247549539022398143240041992925361728015737435190850
      8408964152537145430311254762332148950400342623567845108132260859749247549539022398143240041992925361728015737435190852
      (91421356237309504880168872420969807856967187537694807317667973799073247846210703885038753432764157273501384623091229701762452059505501746922555800035608905951630915849176994157485814703956407562816344645467247060476123333774677354594775)
      (91421356237309504880168872420969807856967187537694807317667973799073247846210703885038753432764157273501384623091229707620316435774551258905668557938628120254912162079696262390688434796631622941745956141591903784060395983636215045471804) :=
  inBox_step inBox_zero (by norm_num) (by norm_num) (by norm_num) (by norm_num)
    (by norm_num) (by norm_num) (by norm_num) (by norm_num) (by norm_num) (by norm_num)

theorem inBox_2 :
    inBox 2
      8472249029234941526157738286428197073412261156005107645536980102363039372847144997634604438906014646782775176506235796
      8472249029234941526157738286428197073412261156005107645536980102363039372847144997634604438906014646782775176506235798
      8472012667468914604036314536933523979639810136120005008232957479234881918713276681075814345423535365739965627131465499
      8472012667468914604036314536933523979639810136120005008232957479234881918713276681075814345423535365739965627131465502
      (91389316432360262837890656092205666608820467948891239805711452767394993890366812007423558577290195969413361914635123482040302896824594542879959975417739391645658696489603406376830352697641143454902355914177543280700212667395385969091877)
      (91389316432360262837890656092205666608820467948891239805711452767394993890366812007423558577290195969413361914635123489417004313840750355178677311625913558234984721214423572323294795521320118228774355203047725918427326631483461365047604) :=
  inBox_step inBox_1 (by norm_num) (by norm_num) (by norm_num) (by norm_num)
    (by norm_num) (by norm_num) (by norm_num) (by norm_num) (by norm_num) (by norm_num)

theorem inBox_3 :
    inBox 3
      8472130848351928065097026411680860526526035646062556326884968790798960645780210839355209392164775006261370401818850647
      8472130848351928065097026411680860526526035646062556326884968790798960645780210839355209392164775006261370401818850650
      8472130847527653667042980517799020703921106560594525833177762276594388966885185567535692987624493813242444027016068807
      8472130847527653667042980517799020703921106560594525833177762276594388966885185567535692987624493813242444027016068810
      (91389316208892725080428750775835544900679727955411946620907996178564315537531650436782485556994763416999105311609558648025965322220490376974805467301329169646110987378832707781608468065193845789656977233879069996616476275303069918894273)
      (91389316208892725080428750775835544900679727955411946620907996178564315537531650436782485556994763416999105311609558655412121209877723074130472783296427087133477807507758365888977836015170985918261638874352991933514831951773120305661860) :=
  inBox_step inBox_2 (by norm_num) (by norm_num) (by norm_num) (by norm_num)
    (by norm_num) (by norm_num) (by norm_num) (by norm_num) (by norm_num) (by norm_num)

theorem inBox_4 :
    inBox 4
      8472130847939790866070003464739940615223571103328541080031365533696674806332698203445451189894634409751907214417459727
      8472130847939790866070003464739940615223571103328541080031365533696674806332698203445451189894634409751907214417459730
      8472130847939790866059979004903892114405348585862613004614139299713992816190686666825691081412247106173842114519836025
      8472130847939790866059979004903892114405348585862613004614139299713992816190686666825691081412247106173842114519836029
      (91389316208892725074993324509536667322355153839686374471446922603558077649915506076005229465546218296305260908382691201977910727868896257312704875543763905837147284277882119050886899665157446284638944759578435014754288703197058315081081)
      (91389316208892725074993324509536667322355153839686374471446922603558077649915506076005229465546218296305260908382691209364066694656471167656778004195484793397706309337735173050081631254015760335669701073627192818647174196599089768905308) :=
  inBox_step inBox_3 (by norm_num) (by norm_num) (by norm_num) (by norm_num)
    (by norm_num) (by norm_num) (by norm_num) (by norm_num) (by norm_num) (by norm_num)

theorem inBox_5 :
    inBox 5
      8472130847939790866064991234821916364814459844595577042322752416705333811261692435135571135653440757962874664468647876
      8472130847939790866064991234821916364814459844595577042322752416705333811261692435135571135653440757962874664468647880
      8472130847939790866064991234821916364814458361943266658888835036489346285421002759328467177901473609999045027682614106
      8472130847939790866064991234821916364814458361943266658888835036489346285421002759328467177901473609999045027682614111
      (91389316208892725074993324509536667322353546002966301678872449453496871614161077119816968453722843489253851724970912389012915584855905151694376563138123235261387713587930830517495414073250144931003568142616994258195831153246565868248681)
      (91389316208892725074993324509536667322353546002966301678872449453496871614161077119816968453722843489253851724970912396399071551643480064283928695064708306103790651015672777975366557782874250792618527282930052116844718133230974389782044) :=
  inBox_step inBox_4 (by norm_num) (by norm_num) (by norm_num) (by norm_num)
    (by norm_num) (by norm_num) (by norm_num) (by norm_num) (by norm_num) (by norm_num)

theorem inBox_6 :
    inBox 6
      8472130847939790866064991234821916364814459103269421850605793726597340048341347597232019156777457183980959846075630991
      8472130847939790866064991234821916364814459103269421850605793726597340048341347597232019156777457183980959846075630996
      8472130847939790866064991234821916364814459103269421850605793726597340048341347597231986723114767414861485866429037224
      8472130847939790866064991234821916364814459103269421850605793726597340048341347597231986723114767414861485866429037230
      (91389316208892725074993324509536667322353546002966301678872449453496871614161077119746624201771312786315634946301927554887144904104361318352039177755870507701857226620725574934139000887533886665909266474292587604008785581994666070390249)
      (91389316208892725074993324509536667322353546002966301678872449453496871614161077119746624201771312786315634946301927562273300870891936230941591309682455578545114171779248380328421149005972876764777490506485310595734899727849863347374844) :=
  inBox_step inBox_5 (by norm_num) (by norm_num) (by norm_num) (by norm_num)
    (by norm_num) (by norm_num) (by norm_num) (by norm_num) (by norm_num) (by norm_num)

end Gauss

/-- One Taylor term `x^(2i+1)/(2i+1)` without its sign. -/
def atanTerm (x : ℚ) (i : ℕ) : ℚ := x ^ (2 * i + 1) / ((2 * i + 1 : ℕ) : ℚ)

theorem atanTerm_nonneg {x : ℚ} (hx0 : 0 ≤ x) (i : ℕ) : 0 ≤ atanTerm x i :=
  div_nonneg (pow_nonneg hx0 _) (Nat.cast_nonneg _)

theorem atanTerm_succ_le {x : ℚ} (hx0 : 0 ≤ x) (hx1 : x ≤ 1) (i : ℕ) :
    atanTerm x (i + 1) ≤ atanTerm x i := by
  have h1 : x ^ (2 * (i + 1) + 1) ≤ x ^ (2 * i + 1) :=
    pow_le_pow_of_le_one hx0 hx1 (by omega)
  have h2 : ((2 * i + 1 : ℕ) : ℚ) ≤ ((2 * (i + 1) + 1 : ℕ) : ℚ) := by
    exact_mod_cast (by omega : (2 * i + 1 : ℕ) ≤ 2 * (i + 1) + 1)
  have h3 : (0 : ℚ) < ((2 * i + 1 : ℕ) : ℚ) := by exact_mod_cast Nat.succ_pos (2 * i)
  exact div_le_div (pow_nonneg hx0 _) h1 h3 h2

theorem taylorArctan_succ (x : ℚ) (n : ℕ) :
    taylorArctan x (n + 1) = taylorArctan x n + (-1) ^ n * atanTerm x n := by
  unfold taylorArctan atanTerm
  rw [Finset.sum_range_succ, mul_div_assoc]

/-- Partial sums of the alternating Taylor series, continued from an even
index `m` by an even number of further terms, stay within the first omitted
term: `P m ≤ P (m + 2k)` and `P (m + 2k) + T (m + 2k) ≤ P m + T m`. -/
theorem taylor_block_aux {x : ℚ} (hx0 : 0 ≤ x) (hx1 : x ≤ 1) (m : ℕ) (hm : m % 2 = 0) :
    ∀ k : ℕ,
      0 ≤ taylorArctan x (m + 2 * k) - taylorArctan x m ∧
      taylorArctan x (m + 2 * k) - taylorArctan x m + atanTerm x (m + 2 * k) ≤ atanTerm x m := by
  intro k
  induction k with
  | zero => simp
  | succ k ih =>
      obtain ⟨ih1, ih2⟩ := ih
      have heven : (-1 : ℚ) ^ (m + 2 * k) = 1 :=
        Even.neg_one_pow (Nat.even_iff.mpr (by omega))
      have hodd : (-1 : ℚ) ^ (m + 2 * k + 1) = -1 :=
        Odd.neg_one_pow (Nat.odd_iff.mpr (by omega))
      have hs1 := taylorArctan_succ x (m + 2 * k)
      have hs2 := taylorArctan_succ x (m + 2 * k + 1)
      rw [heven] at hs1
      rw [hodd] at hs2
      have ha1 := atanTerm_succ_le hx0 hx1 (m + 2 * k)
      have ha2 := atanTerm_succ_le hx0 hx1 (m + 2 * k + 1)
      have hidx : m + 2 * (k + 1) = m + 2 * k + 1 + 1 := by omega
      rw [hidx]
      constructor
      · rw [hs2, hs1]; linarith
      · rw [hs2, hs1]
        have hidx2 : m + 2 * k + 1 + 1 = m + 2 * (k + 1) := by omega
        rw [hidx2]
        have hstep : atanTerm x (m + 2 * (k + 1)) ≤ atanTerm x (m + 2 * k + 1) := by
          rw [show m + 2 * (k + 1) = m + 2 * k + 1 + 1 from by omega]
          exact ha2
        linarith

theorem taylor_block {x : ℚ} (hx0 : 0 ≤ x) (hx1 : x ≤ 1) (m : ℕ) (hm : m % 2 = 0) (k : ℕ) :
    taylorArctan x m ≤ taylorArctan x (m + 2 * k) ∧
    taylorArctan x (m + 2 * k) ≤ taylorArctan x m + atanTerm x m := by
  obtain ⟨h1, h2⟩ := taylor_block_aux hx0 hx1 m hm k
  have h3 := atanTerm_nonneg hx0 (m + 2 * k)
  constructor <;> linarith

namespace Machin

theorem seriesLoop_eq (x : ℚ) : ∀ (r i : ℕ) (sum pow : ℚ), pow = x ^ (2 * i + 1) →
    seriesLoop x r i sum pow =
      sum + (Finset.range r).sum
        fun j => (-1) ^ (i + j) * x ^ (2 * (i + j) + 1) / ((2 * (i + j) + 1 : ℕ) : ℚ) := by
  intro r
  induction r with
  | zero => intro i sum pow hp; simp [seriesLoop]
  | succ r ih =>
      intro i sum pow hp
      rw [seriesLoop]
      rw [ih (i + 1) _ _ (by rw [hp]; ring)]
      rw [Finset.sum_range_succ']
      have hre : (Finset.range r).sum
          (fun j => (-1) ^ (i + (j + 1)) * x ^ (2 * (i + (j + 1)) + 1) /
            ((2 * (i + (j + 1)) + 1 : ℕ) : ℚ)) =
          (Finset.range r).sum
          (fun j => (-1) ^ (i + 1 + j) * x ^ (2 * (i + 1 + j) + 1) /
            ((2 * (i + 1 + j) + 1 : ℕ) : ℚ)) :=
        Finset.sum_congr rfl fun j _ => by rw [show i + (j + 1) = i + 1 + j from by omega]
      rw [hre, hp]
      rcases Nat.even_or_odd i with he | ho
      · rw [if_pos (Nat.even_iff.mp he)]
        rw [show ((-1 : ℚ)) ^ (i + 0) = 1 from by simpa using he.neg_one_pow]
        ring_nf
        linarith [hre]
      · rw [if_neg (by simpa [Nat.odd_iff] using ho)]
        rw [show ((-1 : ℚ)) ^ (i + 0) = -1 from by simpa using ho.neg_one_pow]
        ring_nf
        linarith [hre]

theorem arctanLoop_eq (x : ℚ) (n : ℕ) : arctanLoop x n = taylorArctan x n := by
  unfold arctanLoop taylorArctan
  rw [seriesLoop_eq x n 0 0 x (by norm_num)]
  simp

theorem piValue_eq_taylor (digits : ℕ) :
    piValue digits =
      4 * (4 * taylorArctan (1 / 5) (digits + 1000) - taylorArctan (1 / 239) (digits + 1000)) := by
  show 4 * (4 * arctanLoop (1 / 5) (digits + 1000) - arctanLoop (1 / 239) (digits + 1000)) =
    4 * (4 * taylorArctan (1 / 5) (digits + 1000) - taylorArctan (1 / 239) (digits + 1000))
  rw [arctanLoop_eq, arctanLoop_eq]

end Machin
namespace Gauss

theorem abs_diff_ge_of_box {n : ℕ} {al ah bl bh tl th : ℤ}
    (h : inBox n al ah bl bh tl th)
    (hcond : (10 : ℝ) ^ 118 * cmpThreshold ≤ (al : ℝ) - bh) :
    cmpThreshold ≤ |a n - b n| := by
  obtain ⟨ha1, ha2, hb1, hb2, _, _⟩ := h
  have hE : (0 : ℝ) < 10 ^ 118 := by positivity
  have hr : (10 : ℝ) ^ 118 * (a n - b n) = 10 ^ 118 * a n - 10 ^ 118 * b n := by ring
  have h1 : 10 ^ 118 * cmpThreshold ≤ 10 ^ 118 * (a n - b n) := by linarith
  exact le_trans ((mul_le_mul_left hE).mp h1) (le_abs_self _)

theorem diff_ge_1 : cmpThreshold ≤ |a 1 - b 1| :=
  abs_diff_ge_of_box inBox_1 (by norm_num [cmpThreshold])

theorem diff_ge_2 : cmpThreshold ≤ |a 2 - b 2| :=
  abs_diff_ge_of_box inBox_2 (by norm_num [cmpThreshold])

theorem diff_ge_3 : cmpThreshold ≤ |a 3 - b 3| :=
  abs_diff_ge_of_box inBox_3 (by norm_num [cmpThreshold])

theorem diff_ge_4 : cmpThreshold ≤ |a 4 - b 4| :=
  abs_diff_ge_of_box inBox_4 (by norm_num [cmpThreshold])

theorem diff_ge_5 : cmpThreshold ≤ |a 5 - b 5| :=
  abs_diff_ge_of_box inBox_5 (by norm_num [cmpThreshold])

theorem abs_diff_6_lt : |a 6 - b 6| < cmpThreshold := by
  obtain ⟨ha1, ha2, hb1, hb2, hx1, hx2⟩ := inBox_5
  obtain ⟨h6a1, h6a2, h6b1, h6b2, hy1, hy2⟩ := inBox_6
  have hE : (0 : ℝ) < 10 ^ 118 := by positivity
  have ha5 : 0 ≤ a 5 := by
    have h0 : (10 : ℝ) ^ 118 * 0 < 10 ^ 118 * a 5 := by
      rw [mul_zero]
      calc (0 : ℝ) < ((8472130847939790866064991234821916364814459844595577042322752416705333811261692435135571135653440757962874664468647876 : ℤ) : ℝ) := by norm_num
        _ ≤ 10 ^ 118 * a 5 := ha1
    exact le_of_lt ((mul_lt_mul_left hE).mp h0)
  have hb5 : 0 ≤ b 5 := by
    have h0 : (10 : ℝ) ^ 118 * 0 < 10 ^ 118 * b 5 := by
      rw [mul_zero]
      calc (0 : ℝ) < ((8472130847939790866064991234821916364814458361943266658888835036489346285421002759328467177901473609999045027682614106 : ℤ) : ℝ) := by norm_num
        _ ≤ 10 ^ 118 * b 5 := hb1
    exact le_of_lt ((mul_lt_mul_left hE).mp h0)
  have hab : b 6 ≤ a 6 := by
    rw [a_succ, b_succ]
    exact sqrt_mul_le_add_div_two ha5 hb5
  rw [abs_of_nonneg (by linarith : (0 : ℝ) ≤ a 6 - b 6)]
  have hr : (10 : ℝ) ^ 118 * (a 6 - b 6) = 10 ^ 118 * a 6 - 10 ^ 118 * b 6 := by ring
  have h2 : ((8472130847939790866064991234821916364814459103269421850605793726597340048341347597232019156777457183980959846075630996 : ℤ) : ℝ) - ((8472130847939790866064991234821916364814459103269421850605793726597340048341347597231986723114767414861485866429037224 : ℤ) : ℝ) < 10 ^ 118 * cmpThreshold := by
    norm_num [cmpThreshold]
  have h1 : 10 ^ 118 * (a 6 - b 6) < 10 ^ 118 * cmpThreshold := by linarith
  exact (mul_lt_mul_left hE).mp h1

theorem stopIndex_eq : stopIndex = 5 := by
  have h5 : 5 ∈ { n : ℕ | |a (n + 1) - b (n + 1)| < cmpThreshold } := abs_diff_6_lt
  have hlb : ∀ m, m ∈ { n : ℕ | |a (n + 1) - b (n + 1)| < cmpThreshold } → 5 ≤ m := by
    intro m hm
    by_contra hlt
    push_neg at hlt
    interval_cases m
    · exact absurd hm (not_lt.mpr diff_ge_1)
    · exact absurd hm (not_lt.mpr diff_ge_2)
    · exact absurd hm (not_lt.mpr diff_ge_3)
    · exact absurd hm (not_lt.mpr diff_ge_4)
    · exact absurd hm (not_lt.mpr diff_ge_5)
  exact le_antisymm (Nat.sInf_le h5) (hlb _ (Nat.sInf_mem ⟨5, h5⟩))

theorem piValue_bounds :
    ((287108004418451999128477289466311770662851955735993748795905465550907769250339946548065748380051448792272728966276880263433934435614122879641841431258126393583745427768763435664009271690023576437907721971827048133769410296379275198568324 : ℝ) /
      91389316208892725074993324509536667322353546002966301678872449453496871614161077119816968453722843489253851724970912396399071551643480064283928695064708306103790651015672777975366557782874250792618527282930052116844718133230974389782044 ≤ piValue) ∧
    (piValue ≤ (287108004418451999128477289466311770662851955735993748795905465550907769250339946548065748380051448792272728966276880568430644961446594057981525884847115526904273145467950057472583429194265316726421222324516692122228033610933733921284081 : ℝ) /
      91389316208892725074993324509536667322353546002966301678872449453496871614161077119816968453722843489253851724970912389012915584855905151694376563138123235261387713587930830517495414073250144931003568142616994258195831153246565868248681) := by
  obtain ⟨ha1, ha2, hb1, hb2, ht1, ht2⟩ := inBox_5
  have htpos : (0 : ℝ) < 4 * 10 ^ 236 * t 5 := by
    calc (0 : ℝ) < ((91389316208892725074993324509536667322353546002966301678872449453496871614161077119816968453722843489253851724970912389012915584855905151694376563138123235261387713587930830517495414073250144931003568142616994258195831153246565868248681 : ℤ) : ℝ) := by norm_num
      _ ≤ 4 * 10 ^ 236 * t 5 := ht1
  have ht5 : 0 < t 5 := by nlinarith
  have hXY0 : (0 : ℝ) ≤ 10 ^ 118 * a 5 + 10 ^ 118 * b 5 := by
    have hz : (0 : ℝ) ≤ ((8472130847939790866064991234821916364814459844595577042322752416705333811261692435135571135653440757962874664468647876 : ℤ) : ℝ) + ((8472130847939790866064991234821916364814458361943266658888835036489346285421002759328467177901473609999045027682614106 : ℤ) : ℝ) := by norm_num
    linarith
  have hval : piValue = (10 ^ 118 * a 5 + 10 ^ 118 * b 5) ^ 2 / (4 * 10 ^ 236 * t 5) := by
    unfold piValue
    rw [stopIndex_eq]
    rw [div_eq_div_iff (by positivity) (by positivity)]
    ring
  constructor
  · rw [hval]
    have hlb : ((8472130847939790866064991234821916364814459844595577042322752416705333811261692435135571135653440757962874664468647876 : ℤ) : ℝ) + ((8472130847939790866064991234821916364814458361943266658888835036489346285421002759328467177901473609999045027682614106 : ℤ) : ℝ) ≤ 10 ^ 118 * a 5 + 10 ^ 118 * b 5 := by
      linarith
    refine div_le_div (sq_nonneg _) ?_ htpos ht2
    calc ((287108004418451999128477289466311770662851955735993748795905465550907769250339946548065748380051448792272728966276880263433934435614122879641841431258126393583745427768763435664009271690023576437907721971827048133769410296379275198568324 : ℝ))
        = (((8472130847939790866064991234821916364814459844595577042322752416705333811261692435135571135653440757962874664468647876 : ℤ) : ℝ) + ((8472130847939790866064991234821916364814458361943266658888835036489346285421002759328467177901473609999045027682614106 : ℤ) : ℝ)) ^ 2 := by push_cast; norm_num
      _ ≤ (10 ^ 118 * a 5 + 10 ^ 118 * b 5) ^ 2 := pow_le_pow_left₀ (by push_cast; norm_num) hlb 2
  · rw [hval]
    have hub : 10 ^ 118 * a 5 + 10 ^ 118 * b 5 ≤ ((8472130847939790866064991234821916364814459844595577042322752416705333811261692435135571135653440757962874664468647880 : ℤ) : ℝ) + ((8472130847939790866064991234821916364814458361943266658888835036489346285421002759328467177901473609999045027682614111 : ℤ) : ℝ) := by
      linarith
    refine div_le_div (by norm_num) ?_ (by norm_num) ht1
    calc (10 ^ 118 * a 5 + 10 ^ 118 * b 5) ^ 2
          ≤ (((8472130847939790866064991234821916364814459844595577042322752416705333811261692435135571135653440757962874664468647880 : ℤ) : ℝ) + ((8472130847939790866064991234821916364814458361943266658888835036489346285421002759328467177901473609999045027682614111 : ℤ) : ℝ)) ^ 2 := pow_le_pow_left₀ hXY0 hub 2
        _ = ((287108004418451999128477289466311770662851955735993748795905465550907769250339946548065748380051448792272728966276880568430644961446594057981525884847115526904273145467950057472583429194265316726421222324516692122228033610933733921284081 : ℝ)) := by push_cast; norm_num

theorem floor_pi_20 : ⌊piValue * 10 ^ 21 + 1 / 2⌋ = 3141592653589793238463 := by
  obtain ⟨hlo, hhi⟩ := piValue_bounds
  have hp : (0 : ℝ) ≤ 10 ^ 21 := by positivity
  rw [Int.floor_eq_iff]
  constructor
  · have h1 := mul_le_mul_of_nonneg_right hlo hp
    have h2 : ((3141592653589793238463 : ℤ) : ℝ) ≤
        ((287108004418451999128477289466311770662851955735993748795905465550907769250339946548065748380051448792272728966276880263433934435614122879641841431258126393583745427768763435664009271690023576437907721971827048133769410296379275198568324 : ℝ) /
          91389316208892725074993324509536667322353546002966301678872449453496871614161077119816968453722843489253851724970912396399071551643480064283928695064708306103790651015672777975366557782874250792618527282930052116844718133230974389782044) * 10 ^ 21 + 1 / 2 := by
      rw [div_mul_eq_mul_div, ← sub_le_iff_le_add, le_div_iff (by norm_num :
        (0 : ℝ) < 91389316208892725074993324509536667322353546002966301678872449453496871614161077119816968453722843489253851724970912396399071551643480064283928695064708306103790651015672777975366557782874250792618527282930052116844718133230974389782044)]
      norm_num
    linarith
  · have h1 := mul_le_mul_of_nonneg_right hhi hp
    have h2 : ((287108004418451999128477289466311770662851955735993748795905465550907769250339946548065748380051448792272728966276880568430644961446594057981525884847115526904273145467950057472583429194265316726421222324516692122228033610933733921284081 : ℝ) /
          91389316208892725074993324509536667322353546002966301678872449453496871614161077119816968453722843489253851724970912389012915584855905151694376563138123235261387713587930830517495414073250144931003568142616994258195831153246565868248681) * 10 ^ 21 + 1 / 2 < ((3141592653589793238463 : ℤ) : ℝ) + 1 := by
      rw [div_mul_eq_mul_div, ← lt_sub_iff_add_lt, div_lt_iff (by norm_num :
        (0 : ℝ) < 91389316208892725074993324509536667322353546002966301678872449453496871614161077119816968453722843489253851724970912389012915584855905151694376563138123235261387713587930830517495414073250144931003568142616994258195831153246565868248681)]
      norm_num
    linarith

theorem floor_pi_100 : ⌊piValue * 10 ^ 101 + 1 / 2⌋ = 314159265358979323846264338327950288419716939937510582097494459230781640628620899862562870321167203591 := by
  obtain ⟨hlo, hhi⟩ := piValue_bounds
  have hp : (0 : ℝ) ≤ 10 ^ 101 := by positivity
  rw [Int.floor_eq_iff]
  constructor
  · have h1 := mul_le_mul_of_nonneg_right hlo hp
    have h2 : ((314159265358979323846264338327950288419716939937510582097494459230781640628620899862562870321167203591 : ℤ) : ℝ) ≤
        ((287108004418451999128477289466311770662851955735993748795905465550907769250339946548065748380051448792272728966276880263433934435614122879641841431258126393583745427768763435664009271690023576437907721971827048133769410296379275198568324 : ℝ) /
          91389316208892725074993324509536667322353546002966301678872449453496871614161077119816968453722843489253851724970912396399071551643480064283928695064708306103790651015672777975366557782874250792618527282930052116844718133230974389782044) * 10 ^ 101 + 1 / 2 := by
      rw [div_mul_eq_mul_div, ← sub_le_iff_le_add, le_div_iff (by norm_num :
        (0 : ℝ) < 91389316208892725074993324509536667322353546002966301678872449453496871614161077119816968453722843489253851724970912396399071551643480064283928695064708306103790651015672777975366557782874250792618527282930052116844718133230974389782044)]
      norm_num
    linarith
  · have h1 := mul_le_mul_of_nonneg_right hhi hp
    have h2 : ((287108004418451999128477289466311770662851955735993748795905465550907769250339946548065748380051448792272728966276880568430644961446594057981525884847115526904273145467950057472583429194265316726421222324516692122228033610933733921284081 : ℝ) /
          91389316208892725074993324509536667322353546002966301678872449453496871614161077119816968453722843489253851724970912389012915584855905151694376563138123235261387713587930830517495414073250144931003568142616994258195831153246565868248681) * 10 ^ 101 + 1 / 2 < ((314159265358979323846264338327950288419716939937510582097494459230781640628620899862562870321167203591 : ℤ) : ℝ) + 1 := by
      rw [div_mul_eq_mul_div, ← lt_sub_iff_add_lt, div_lt_iff (by norm_num :
        (0 : ℝ) < 91389316208892725074993324509536667322353546002966301678872449453496871614161077119816968453722843489253851724970912389012915584855905151694376563138123235261387713587930830517495414073250144931003568142616994258195831153246565868248681)]
      norm_num
    linarith

end Gauss

theorem taylorArctan_add (x : ℚ) (m : ℕ) : ∀ k : ℕ,
    taylorArctan x (m + k) = taylorArctan x m +
      (Finset.range k).sum
        (fun j => (-1) ^ (m + j) * x ^ (2 * (m + j) + 1) / ((2 * (m + j) + 1 : ℕ) : ℚ)) := by
  intro k
  induction k with
  | zero => simp
  | succ k ih =>
      rw [show m + (k + 1) = (m + k) + 1 from rfl]
      rw [taylorArctan_succ, ih, Finset.sum_range_succ]
      unfold atanTerm
      ring

theorem taylor5_6_eq :
    taylorArctan (1 / 5 : ℚ) 6 =
      (6679449362 : ℚ) /
        33837890625 := by
  norm_num [taylorArctan, Finset.sum_range_succ]

theorem taylor5_12_eq :
    taylorArctan (1 / 5 : ℚ) 12 =
      (157490522761940959144868 : ℚ) /
        797842276096343994140625 := by
  rw [show (12 : ℕ) = 6 + 6 from rfl, taylorArctan_add, taylor5_6_eq]
  norm_num [Finset.sum_range_succ]

theorem taylor5_18_eq :
    taylorArctan (1 / 5 : ℚ) 18 =
      (518496020372259237173100011908744894 : ℚ) /
        2626685325478320010006427764892578125 := by
  rw [show (18 : ℕ) = 12 + 6 from rfl, taylorArctan_add, taylor5_12_eq]
  norm_num [Finset.sum_range_succ]

theorem taylor5_26_eq :
    taylorArctan (1 / 5 : ℚ) 26 =
      (339582598105256198630147161946031166267615698239587442 : ℚ) /
        1720315281475979622083372078122920356690883636474609375 := by
  rw [show (26 : ℕ) = 18 + 8 from rfl, taylorArctan_add, taylor5_18_eq]
  norm_num [Finset.sum_range_succ]

theorem taylor5_34_eq :
    taylorArctan (1 / 5 : ℚ) 34 =
      (662213477070996303718111207104677377390022756156279878709600982156003194 : ℚ) /
        3354753660997285750309292181952323941285243336096755228936672210693359375 := by
  rw [show (34 : ℕ) = 26 + 8 from rfl, taylorArctan_add, taylor5_26_eq]
  norm_num [Finset.sum_range_succ]

theorem taylor5_42_eq :
    taylorArctan (1 / 5 : ℚ) 42 =
      (10302099300626171028037286143697740378354286250183991591576226244492661693666077949415303218 : ℚ) /
        52190126811671515233556147825236133316449148298091752218308414512648596428334712982177734375 := by
  rw [show (42 : ℕ) = 34 + 8 from rfl, taylorArctan_add, taylor5_34_eq]
  norm_num [Finset.sum_range_succ]

theorem taylor5_50_eq :
    taylorArctan (1 / 5 : ℚ) 50 =
      (714256071892232268363919639816626239064528239985724193453156970403326404725761463229281054767258960227342 : ℚ) /
        3618399889214446949296571624557202300390187291656703723310422736621216888153185209375806152820587158203125 := by
  rw [show (50 : ℕ) = 42 + 8 from rfl, taylorArctan_add, taylor5_42_eq]
  norm_num [Finset.sum_range_succ]

theorem taylor5_58_eq :
    taylorArctan (1 / 5 : ℚ) 58 =
      (201924775288974257784286071093033251847356818627506893825437866599097151663961193548943840874211858225033507881033909286441006 : ℚ) /
        1022944869897468645609567778413732390433360132911434202511495115586747653214878678849288073937628951171063818037509918212890625 := by
  rw [show (58 : ℕ) = 50 + 8 from rfl, taylorArctan_add, taylor5_50_eq]
  norm_num [Finset.sum_range_succ]

theorem taylor5_66_eq :
    taylorArctan (1 / 5 : ℚ) 66 =
      (1127735820047281249826929962540366709009681070146611148630124134909087293535356022585063476519722124011352752446574182801704731339148829291186 : ℚ) /
        5713075921793397351900334790776425890382017146109705783051183673650632561398172069707387162692372481291591679308794482494704425334930419921875 := by
  rw [show (66 : ℕ) = 58 + 8 from rfl, taylorArctan_add, taylor5_58_eq]
  norm_num [Finset.sum_range_succ]

theorem taylor5_74_eq :
    taylorArctan (1 / 5 : ℚ) 74 =
      (62261046020820184321385241433176858757592128869207215265488529071106145825970750430856309796745694254774420955928409450572353150895129384236367504506408305386 : ℚ) /
        315412596251758064220050572661492017575126693382869784134861774177436969218048465537310440222757893991619846593089308665891490335297930869273841381072998046875 := by
  rw [show (74 : ℕ) = 66 + 8 from rfl, taylorArctan_add, taylor5_66_eq]
  norm_num [Finset.sum_range_succ]

theorem taylor5_76_eq :
    taylorArctan (1 / 5 : ℚ) 76 =
      (875507046514020829404279091878153840741915817142683210161391509731760734336572446214897571323113359398856264720059591280785381910361118372167487095606541525563621028 : ℚ) /
        4435292501917690429304323646444318064639234671513242045781409410761346481523045266327467246607393660573409330311197722296182900658667591642370098270475864410400390625 := by
  rw [show (76 : ℕ) = 74 + 2 from rfl, taylorArctan_add, taylor5_74_eq]
  norm_num [Finset.sum_range_succ]

theorem taylor239_6_eq :
    taylorArctan (1 / 239 : ℚ) 6 =
      (2107073640424126695510348658 : ℚ) /
        503593538783547230635598424135 := by
  norm_num [taylorArctan, Finset.sum_range_succ]

theorem taylor239_14_eq :
    taylorArctan (1 / 239 : ℚ) 14 =
      (345948218882288013808631814046544286316442261130056370270682931724454678 : ℚ) /
        82682106804643480101876842848857096188806647853042343245872678431569336425 := by
  rw [show (14 : ℕ) = 6 + 8 from rfl, taylorArctan_add, taylor239_6_eq]
  norm_num [Finset.sum_range_succ]

theorem taylor239_22_eq :
    taylorArctan (1 / 239 : ℚ) 22 =
      (2299276720547785629757473425359758988737988203092090082106709398102033841500988819531563608305599050977412090066186022 : ℚ) /
        549530342997512930657249678135401597659977122644158197558180615647689174036401083932148411552067363229590001329368950325 := by
  rw [show (22 : ℕ) = 14 + 8 from rfl, taylorArctan_add, taylor239_14_eq]
  norm_num [Finset.sum_range_succ]

theorem machin_floor_20 :
    ⌊Machin.piValue 20 * 10 ^ 21 + 1 / 2⌋ = 3141592653589793238463 := by
  have e := Machin.piValue_eq_taylor 20
  rw [show (20 + 1000 : ℕ) = 1020 from by norm_num] at e
  have h1 := taylor_block (x := (1 / 5 : ℚ)) (by norm_num) (by norm_num) 18 (by norm_num) 501
  rw [show (18 + 2 * 501 : ℕ) = 1020 from by norm_num] at h1
  have h2 := taylor_block (x := (1 / 239 : ℚ)) (by norm_num) (by norm_num) 6 (by norm_num) 507
  rw [show (6 + 2 * 507 : ℕ) = 1020 from by norm_num] at h2
  obtain ⟨h1l, h1u⟩ := h1
  obtain ⟨h2l, h2u⟩ := h2
  have hv1 := taylor5_18_eq
  have hv2 := taylor239_6_eq
  have ht1 : atanTerm (1 / 5 : ℚ) 18 = (1 : ℚ) / 2692104317247867584228515625 := by
    norm_num [atanTerm]
  have ht2 : atanTerm (1 / 239 : ℚ) 6 = (1 : ℚ) / 107923510786468980575690686466147 := by
    norm_num [atanTerm]
  rw [hv1] at h1l h1u
  rw [ht1] at h1u
  rw [hv2] at h2l h2u
  rw [ht2] at h2u
  rw [Int.floor_eq_iff]
  constructor
  · rw [e]
    have key : ((3141592653589793238463 : ℤ) : ℚ) ≤
        4 * (4 * ((518496020372259237173100011908744894 : ℚ) /
          2626685325478320010006427764892578125) -
          ((2107073640424126695510348658 : ℚ) /
          503593538783547230635598424135 + (1 : ℚ) / 107923510786468980575690686466147)) * 10 ^ 21 + 1 / 2 := by
      push_cast
      norm_num
    nlinarith [h1l, h2u, key]
  · rw [e]
    have key : 4 * (4 * ((518496020372259237173100011908744894 : ℚ) /
          2626685325478320010006427764892578125 + (1 : ℚ) / 2692104317247867584228515625) -
          ((2107073640424126695510348658 : ℚ) /
          503593538783547230635598424135)) * 10 ^ 21 + 1 / 2 < ((3141592653589793238463 : ℤ) : ℚ) + 1 := by
      push_cast
      norm_num
    nlinarith [h1u, h2l, key]

theorem machin_floor_100 :
    ⌊Machin.piValue 100 * 10 ^ 101 + 1 / 2⌋ = 314159265358979323846264338327950288419716939937510582097494459230781640628620899862803482534211706798 := by
  have e := Machin.piValue_eq_taylor 100
  rw [show (100 + 1000 : ℕ) = 1100 from by norm_num] at e
  have h1 := taylor_block (x := (1 / 5 : ℚ)) (by norm_num) (by norm_num) 76 (by norm_num) 512
  rw [show (76 + 2 * 512 : ℕ) = 1100 from by norm_num] at h1
  have h2 := taylor_block (x := (1 / 239 : ℚ)) (by norm_num) (by norm_num) 22 (by norm_num) 539
  rw [show (22 + 2 * 539 : ℕ) = 1100 from by norm_num] at h2
  obtain ⟨h1l, h1u⟩ := h1
  obtain ⟨h2l, h2u⟩ := h2
  have hv1 := taylor5_76_eq
  have hv2 := taylor239_22_eq
  have ht1 : atanTerm (1 / 5 : ℚ) 76 = (1 : ℚ) / 13399916565106063240708164140209823005367504819194182067426965464696127228183542001715977676212787628173828125 := by
    norm_num [atanTerm]
  have ht2 : atanTerm (1 / 239 : ℚ) 22 = (1 : ℚ) / 4798638747062429331758576755495070502894489007173918789879124875555722738568235348636860652203556121517605955 := by
    norm_num [atanTerm]
  rw [hv1] at h1l h1u
  rw [ht1] at h1u
  rw [hv2] at h2l h2u
  rw [ht2] at h2u
  rw [Int.floor_eq_iff]
  constructor
  · rw [e]
    have key : ((314159265358979323846264338327950288419716939937510582097494459230781640628620899862803482534211706798 : ℤ) : ℚ) ≤
        4 * (4 * ((875507046514020829404279091878153840741915817142683210161391509731760734336572446214897571323113359398856264720059591280785381910361118372167487095606541525563621028 : ℚ) /
          4435292501917690429304323646444318064639234671513242045781409410761346481523045266327467246607393660573409330311197722296182900658667591642370098270475864410400390625) -
          ((2299276720547785629757473425359758988737988203092090082106709398102033841500988819531563608305599050977412090066186022 : ℚ) /
          549530342997512930657249678135401597659977122644158197558180615647689174036401083932148411552067363229590001329368950325 + (1 : ℚ) / 4798638747062429331758576755495070502894489007173918789879124875555722738568235348636860652203556121517605955)) * 10 ^ 101 + 1 / 2 := by
      push_cast
      norm_num
    nlinarith [h1l, h2u, key]
  · rw [e]
    have key : 4 * (4 * ((875507046514020829404279091878153840741915817142683210161391509731760734336572446214897571323113359398856264720059591280785381910361118372167487095606541525563621028 : ℚ) /
          4435292501917690429304323646444318064639234671513242045781409410761346481523045266327467246607393660573409330311197722296182900658667591642370098270475864410400390625 + (1 : ℚ) / 13399916565106063240708164140209823005367504819194182067426965464696127228183542001715977676212787628173828125) -
          ((2299276720547785629757473425359758988737988203092090082106709398102033841500988819531563608305599050977412090066186022 : ℚ) /
          549530342997512930657249678135401597659977122644158197558180615647689174036401083932148411552067363229590001329368950325)) * 10 ^ 101 + 1 / 2 < ((314159265358979323846264338327950288419716939937510582097494459230781640628620899862803482534211706798 : ℤ) : ℚ) + 1 := by
      push_cast
      norm_num
    nlinarith [h1u, h2l, key]

theorem natDigitsAux_append : ∀ (fuel n : ℕ) (acc : List Char),
    natDigitsAux fuel n ++ acc = natDigitsAcc fuel n acc := by
  intro fuel
  induction fuel with
  | zero => intro n acc; rfl
  | succ f ih =>
      intro n acc
      simp only [natDigitsAux, natDigitsAcc]
      by_cases hn : n < 10
      · rw [if_pos hn, if_pos hn]
        rfl
      · rw [if_neg hn, if_neg hn, List.append_assoc, ih]
        rfl

theorem natToDigitChars_eq_acc (n : ℕ) :
    natToDigitChars n = natDigitsAcc (n + 1) n [] := by
  unfold natToDigitChars
  rw [← natDigitsAux_append, List.append_nil]

theorem renderChars_acc (n p : ℕ) :
    renderChars n p =
      natDigitsAcc (n / 10 ^ p + 1) (n / 10 ^ p) [] ++
        '.' :: padLeftZeros (natDigitsAcc (n % 10 ^ p + 1) (n % 10 ^ p) []) p := by
  unfold renderChars
  rw [natToDigitChars_eq_acc, natToDigitChars_eq_acc]

set_option maxRecDepth 4000 in
theorem machin_output_20 :
    extractFromChars (renderFfQ (Machin.piValue 20) 21) 20 =
      "14159265358979323846".toList := by
  unfold renderFfQ
  rw [machin_floor_20, renderChars_acc]
  rfl

set_option maxRecDepth 4000 in
theorem machin_output_100 :
    extractFromChars (renderFfQ (Machin.piValue 100) 101) 100 =
      "1415926535897932384626433832795028841971693993751058209749445923078164062862089986280348253421170679".toList := by
  unfold renderFfQ
  rw [machin_floor_100, renderChars_acc]
  rfl

set_option maxRecDepth 4000 in
theorem gauss_output_20 :
    extractFromChars (renderFfR Gauss.piValue 21) 20 =
      "14159265358979323846".toList := by
  unfold renderFfR
  rw [Gauss.floor_pi_20, renderChars_acc]
  rfl

set_option maxRecDepth 4000 in
theorem gauss_output_100 :
    extractFromChars (renderFfR Gauss.piValue 101) 100 =
      "1415926535897932384626433832795028841971693993751058209749445923078164062862089986256287032116720359".toList := by
  unfold renderFfR
  rw [Gauss.floor_pi_100, renderChars_acc]
  rfl

theorem machin_call_eq (digits : ℕ) (h1 : digits ≠ 0) (h2 : ¬ MAX_DIGITS < digits) :
    Machin.calculate_pi_digits true true digits =
      { ret := digits,
        output := some (extractFromChars (renderFfQ (Machin.piValue digits) (digits + 1)) digits),
        precSet := some (precBits digits),
        inited := Machin.mpfVars, cleared := Machin.mpfVars } := by
  unfold Machin.calculate_pi_digits
  rw [if_neg (by simp [h1, h2]), if_neg (by simp)]

theorem gauss_call_eq (keepRunning : Bool) (digits : ℕ) (h1 : digits ≠ 0)
    (h2 : ¬ MAX_DIGITS < digits) :
    Gauss.calculate_pi_digits keepRunning true true digits =
      { ret := digits,
        output := some (extractFromChars (renderFfR Gauss.piValue (digits + 1)) digits),
        precSet := some (precBits digits),
        inited := Gauss.mpfVars, cleared := Gauss.mpfVars } := by
  unfold Gauss.calculate_pi_digits
  rw [if_neg (by simp [h1, h2]), if_neg (by simp)]

theorem decDigit_isDigit {d : ℕ} (h : d < 10) : (decDigit d).isDigit = true := by
  interval_cases d <;> decide

theorem natDigitsAux_fuel : ∀ fuel fuel' n : ℕ, n < fuel → n < fuel' →
    natDigitsAux fuel n = natDigitsAux fuel' n := by
  intro fuel
  induction fuel with
  | zero => intro fuel' n h _; omega
  | succ f ih =>
      intro fuel' n h h'
      cases fuel' with
      | zero => omega
      | succ f' =>
          simp only [natDigitsAux]
          by_cases hn : n < 10
          · rw [if_pos hn, if_pos hn]
          · rw [if_neg hn, if_neg hn, ih f' (n / 10) (by omega) (by omega)]

theorem natToDigitChars_ten (m : ℕ) (h : 10 ≤ m) :
    natToDigitChars m = natToDigitChars (m / 10) ++ [decDigit (m % 10)] := by
  unfold natToDigitChars
  conv_lhs => rw [natDigitsAux]
  rw [if_neg (by omega)]
  rw [natDigitsAux_fuel m (m / 10 + 1) (m / 10) (by omega) (by omega)]

theorem natToDigitChars_lt (m : ℕ) (h : m < 10) : natToDigitChars m = [decDigit m] := by
  unfold natToDigitChars
  simp only [natDigitsAux]
  rw [if_pos h]

theorem natToDigitChars_length : ∀ k m : ℕ, m < 10 ^ k → 1 ≤ k →
    (natToDigitChars m).length ≤ k := by
  intro k
  induction k with
  | zero => intro m _ h1; omega
  | succ k ih =>
      intro m h _
      by_cases hm : m < 10
      · rw [natToDigitChars_lt m hm]
        simp only [List.length_singleton]
        omega
      · have hk : 1 ≤ k := by
          by_contra hk0
          push_neg at hk0
          interval_cases k
          · rw [pow_one] at h; omega
        have hdiv : m / 10 < 10 ^ k := by
          refine (Nat.div_lt_iff_lt_mul (by norm_num : (0 : ℕ) < 10)).mpr ?_
          calc m < 10 ^ (k + 1) := h
            _ = 10 ^ k * 10 := by rw [pow_succ]
        rw [natToDigitChars_ten m (by omega), List.length_append]
        have := ih (m / 10) hdiv hk
        simp
        omega

theorem natToDigitChars_digits : ∀ m : ℕ, ∀ c ∈ natToDigitChars m, c.isDigit = true := by
  intro m
  induction m using Nat.strong_induction_on with
  | _ m ih =>
      by_cases hm : m < 10
      · rw [natToDigitChars_lt m hm]
        intro c hc
        simp at hc
        subst hc
        exact decDigit_isDigit hm
      · rw [natToDigitChars_ten m (by omega)]
        intro c hc
        rw [List.mem_append] at hc
        rcases hc with hc | hc
        · exact ih (m / 10) (by omega) c hc
        · simp at hc
          subst hc
          exact decDigit_isDigit (by omega)

theorem padLeftZeros_digits {s : List Char} (hs : ∀ c ∈ s, c.isDigit = true) (k : ℕ) :
    ∀ c ∈ padLeftZeros s k, c.isDigit = true := by
  intro c hc
  unfold padLeftZeros at hc
  rw [List.mem_append] at hc
  rcases hc with hc | hc
  · rw [List.eq_of_mem_replicate hc]; decide
  · exact hs c hc

theorem padLeftZeros_length {s : List Char} {k : ℕ} (h : s.length ≤ k) :
    (padLeftZeros s k).length = k := by
  unfold padLeftZeros
  simp only [List.length_append, List.length_replicate]
  omega

theorem canon_succ (k m : ℕ) (hk : 1 ≤ k) :
    padLeftZeros (natToDigitChars m) (k + 1) =
      padLeftZeros (natToDigitChars (m / 10)) k ++ [decDigit (m % 10)] := by
  by_cases hm : m < 10
  · rw [natToDigitChars_lt m hm, Nat.div_eq_of_lt hm, Nat.mod_eq_of_lt hm,
      natToDigitChars_lt 0 (by norm_num)]
    unfold padLeftZeros
    simp only [List.length_singleton]
    rw [show decDigit 0 = '0' from rfl]
    rw [show (k + 1 - 1 : ℕ) = (k - 1) + 1 from by omega]
    rw [List.replicate_succ' (k - 1) '0']
  · rw [natToDigitChars_ten m (by omega)]
    unfold padLeftZeros
    rw [List.length_append, List.length_singleton]
    rw [show k + 1 - ((natToDigitChars (m / 10)).length + 1) =
      k - (natToDigitChars (m / 10)).length from by omega]
    rw [List.append_assoc]

theorem dropWhile_digits (l rest : List Char) (h : ∀ c ∈ l, c.isDigit = true) :
    List.dropWhile (fun c => c ≠ '.') (l ++ '.' :: rest) = '.' :: rest := by
  induction l with
  | nil => simp [List.dropWhile]
  | cons a l ih =>
      have ha : a.isDigit = true := h a (by simp)
      have hne : a ≠ '.' := by
        intro heq
        subst heq
        exact absurd ha (by decide)
      rw [List.cons_append, List.dropWhile_cons, if_pos (by simpa using hne)]
      exact ih fun c hc => h c (by simp [hc])

theorem extract_render (n digits : ℕ) (h1 : 1 ≤ digits) :
    extractFromChars (renderChars n (digits + 1)) digits =
      padLeftZeros (natToDigitChars (n % 10 ^ (digits + 1) / 10)) digits := by
  have hmlt : n % 10 ^ (digits + 1) < 10 ^ (digits + 1) := Nat.mod_lt _ (by positivity)
  have hdiv : n % 10 ^ (digits + 1) / 10 < 10 ^ digits := by
    refine (Nat.div_lt_iff_lt_mul (by norm_num : (0 : ℕ) < 10)).mpr ?_
    calc n % 10 ^ (digits + 1) < 10 ^ (digits + 1) := hmlt
      _ = 10 ^ digits * 10 := by rw [pow_succ]
  have hlen : (padLeftZeros (natToDigitChars (n % 10 ^ (digits + 1) / 10)) digits).length =
      digits := padLeftZeros_length (natToDigitChars_length digits _ hdiv h1)
  unfold extractFromChars renderChars
  rw [dropWhile_digits _ _ (natToDigitChars_digits _)]
  rw [if_neg (by simp)]
  rw [List.drop_succ_cons, List.drop_zero]
  rw [canon_succ digits (n % 10 ^ (digits + 1)) h1]
  exact List.take_left' hlen

theorem pow_ten_le_pow_two (D : ℕ) : 10 ^ D ≤ 2 ^ (D * 3322 / 1000 + 1) := by
  have base : (10 : ℕ) ^ 1000 ≤ 2 ^ 3322 := by norm_num
  have hk : 3322 * D ≤ 1000 * (D * 3322 / 1000 + 1) := by omega
  have h2 : ((10 : ℕ) ^ D) ^ 1000 ≤ (2 ^ (D * 3322 / 1000 + 1)) ^ 1000 := by
    calc ((10 : ℕ) ^ D) ^ 1000 = (10 ^ 1000) ^ D := by
          rw [← pow_mul, ← pow_mul, Nat.mul_comm]
      _ ≤ (2 ^ 3322) ^ D := Nat.pow_le_pow_left base D
      _ = 2 ^ (3322 * D) := by rw [← pow_mul]
      _ ≤ 2 ^ (1000 * (D * 3322 / 1000 + 1)) := Nat.pow_le_pow_right (by norm_num) hk
      _ = (2 ^ (D * 3322 / 1000 + 1)) ^ 1000 := by rw [← pow_mul, Nat.mul_comm]
  exact (Nat.pow_le_pow_iff_left (by norm_num : (1000 : ℕ) ≠ 0)).mp h2

theorem clog_ten_pow_le (D : ℕ) : Nat.clog 2 (10 ^ D) ≤ D * 3322 / 1000 + 1 :=
  (Nat.le_pow_iff_clog_le (by norm_num)).mp (pow_ten_le_pow_two D)

theorem clog_two_ten : Nat.clog 2 10 = 4 := by
  have hub : Nat.clog 2 10 ≤ 4 := (Nat.le_pow_iff_clog_le (by norm_num)).mp (by norm_num)
  have hlb : 3 < Nat.clog 2 10 := (Nat.pow_lt_iff_lt_clog (by norm_num)).mp (by norm_num)
  omega

/-- C1: for a requested digit count `D = 20`, `calculate_pi_digits` succeeds
(returns 20) and the returned digit string equals `14159265358979323846`,
under both the series (Machin-formula) variant and the iterative
(Gauss-Legendre) variant. -/
theorem claim_C1 :
    (Machin.calculate_pi_digits true true 20).ret = 20 ∧
    (Machin.calculate_pi_digits true true 20).output = some "14159265358979323846".toList ∧
    (Gauss.calculate_pi_digits true true true 20).ret = 20 ∧
    (Gauss.calculate_pi_digits true true true 20).output = some "14159265358979323846".toList := by
  rw [machin_call_eq 20 (by norm_num) (by norm_num [MAX_DIGITS]),
    gauss_call_eq true 20 (by norm_num) (by norm_num [MAX_DIGITS])]
  refine ⟨rfl, ?_, rfl, ?_⟩
  · simpa using machin_output_20
  · simpa using gauss_output_20

/-- C2 (counterexample): the claim that the series kernel and the iterative
kernel return identical `D`-character digit strings for every
`1 ≤ D ≤ 10,000,000` fails at `D = 100`: the iterative kernel stops at the
fixed `1e-50` threshold, which caps its accuracy near 84 correct digits, so
the two 100-character outputs differ (first difference at fractional
position 84). -/
theorem claim_C2_counterexample :
    (Machin.calculate_pi_digits true true 100).output ≠
      (Gauss.calculate_pi_digits true true true 100).output := by
  rw [machin_call_eq 100 (by norm_num) (by norm_num [MAX_DIGITS]),
    gauss_call_eq true 100 (by norm_num) (by norm_num [MAX_DIGITS])]
  rw [show (100 + 1 : ℕ) = 101 from rfl]
  rw [machin_output_100, gauss_output_100]
  decide

/-- C2 (amended): the two kernels are interchangeable only while the
iterative kernel's fixed stopping threshold still guarantees the requested
digits; they return identical digit strings at `D = 20` (both equal to the
reference digits of π), but not for every `D` up to the configured maximum
(see the counterexample at `D = 100`). -/
theorem claim_C2_amended :
    (Machin.calculate_pi_digits true true 20).output =
      (Gauss.calculate_pi_digits true true true 20).output := by
  rw [machin_call_eq 20 (by norm_num) (by norm_num [MAX_DIGITS]),
    gauss_call_eq true 20 (by norm_num) (by norm_num [MAX_DIGITS])]
  rw [show (20 + 1 : ℕ) = 21 from rfl]
  rw [machin_output_20, gauss_output_20]

/-- C3: the iterative kernel starts from `a₀ = 1`, `b₀ = 1/√2`, `t₀ = 1/4`,
`p₀ = 1`; each round computes `a' = (a+b)/2`, `b' = sqrt(a·b)`,
`t' = t − p·(a'−a)²` with the pre-doubling `p`, and `p' = 2·p`; the loop has
no round limit and stops at the first round whose fresh pair satisfies
`|a' − b'| < 1e-50` (the comparison double, a fixed absolute threshold that
does not depend on the requested digit count or the working precision); the
final value is `(a + b)²/(4t)`, computed once on the loop variables after
the loop exits. -/
theorem claim_C3 :
    Gauss.a 0 = 1 ∧ Gauss.b 0 = 1 / Real.sqrt 2 ∧ Gauss.t 0 = 1 / 4 ∧ Gauss.p 0 = 1 ∧
    (∀ n : ℕ,
      Gauss.a (n + 1) = (Gauss.a n + Gauss.b n) / 2 ∧
      Gauss.b (n + 1) = Real.sqrt (Gauss.a n * Gauss.b n) ∧
      Gauss.t (n + 1) = Gauss.t n - Gauss.p n * (Gauss.a (n + 1) - Gauss.a n) ^ 2 ∧
      Gauss.p (n + 1) = 2 * Gauss.p n) ∧
    (∀ k : ℕ, 1 ≤ k → k ≤ Gauss.stopIndex →
      Gauss.cmpThreshold ≤ |Gauss.a k - Gauss.b k|) ∧
    |Gauss.a (Gauss.stopIndex + 1) - Gauss.b (Gauss.stopIndex + 1)| < Gauss.cmpThreshold ∧
    Gauss.piValue =
      (Gauss.a Gauss.stopIndex + Gauss.b Gauss.stopIndex) ^ 2 /
        (4 * Gauss.t Gauss.stopIndex) := by
  have hb0 : Gauss.b 0 = 1 / Real.sqrt 2 := by
    rw [Gauss.b_zero]
    have h2 : (0 : ℝ) < Real.sqrt 2 := Real.sqrt_pos.mpr (by norm_num)
    rw [div_eq_div_iff (by norm_num : (2 : ℝ) ≠ 0) (ne_of_gt h2), one_mul,
      Real.mul_self_sqrt (by norm_num : (0 : ℝ) ≤ 2)]
  refine ⟨Gauss.a_zero, hb0, Gauss.t_zero, Gauss.p_zero, ?_, ?_, ?_, rfl⟩
  · intro n
    refine ⟨Gauss.a_succ n, Gauss.b_succ n, ?_, ?_⟩
    · rw [Gauss.t_succ, Gauss.a_succ]
      ring
    · rw [Gauss.p_succ]
      ring
  · intro k hk1 hk2
    rw [Gauss.stopIndex_eq] at hk2
    interval_cases k
    · exact Gauss.diff_ge_1
    · exact Gauss.diff_ge_2
    · exact Gauss.diff_ge_3
    · exact Gauss.diff_ge_4
    · exact Gauss.diff_ge_5
  · rw [Gauss.stopIndex_eq]
    exact Gauss.abs_diff_6_lt

/-- C4: for every requested digit count `D`, the series kernel evaluates
each arctangent as a Taylor sum of exactly `D + 1000` terms with no adaptive
early exit — adding `x^(2i+1)/(2i+1)` for even term index `i`, subtracting
it for odd `i`, and advancing the power accumulator by `x²` each step — and
the final value is `π = 4·(4·arctan(1/5) − arctan(1/239))`: the operational
loop value equals the specification-side truncated Taylor expansion. -/
theorem claim_C4 :
    ∀ digits : ℕ,
      Machin.piValue digits =
        4 * (4 * taylorArctan (1 / 5) (digits + 1000) -
          taylorArctan (1 / 239) (digits + 1000)) :=
  fun digits => Machin.piValue_eq_taylor digits

/-- C5: on the success path the engine renders the computed value with
`D + 1` fractional digits, discards everything up to and including the
decimal point, and truncates (does not round) the remainder: the result is
exactly the `D`-digit zero-padded decimal expansion of the first `D` of the
`D + 1` rendered fractional digits (the last rendered digit is dropped, not
used for rounding), so it consists of exactly `D` ASCII decimal digit
characters and contains neither the leading integer digit nor the point. -/
theorem claim_C5 (v : ℚ) (digits : ℕ) (h0 : 0 ≤ v) (h1 : 1 ≤ digits) :
    extractFromChars (renderFfQ v (digits + 1)) digits =
      padLeftZeros (natToDigitChars
        (Int.toNat ⌊v * 10 ^ (digits + 1) + 1 / 2⌋ % 10 ^ (digits + 1) / 10)) digits ∧
    (extractFromChars (renderFfQ v (digits + 1)) digits).length = digits ∧
    ∀ c ∈ extractFromChars (renderFfQ v (digits + 1)) digits, c.isDigit = true := by
  have hdiv : Int.toNat ⌊v * 10 ^ (digits + 1) + 1 / 2⌋ % 10 ^ (digits + 1) / 10 <
      10 ^ digits := by
    refine (Nat.div_lt_iff_lt_mul (by norm_num : (0 : ℕ) < 10)).mpr ?_
    calc Int.toNat ⌊v * 10 ^ (digits + 1) + 1 / 2⌋ % 10 ^ (digits + 1)
        < 10 ^ (digits + 1) := Nat.mod_lt _ (by positivity)
      _ = 10 ^ digits * 10 := by rw [pow_succ]
  have h := extract_render (Int.toNat ⌊v * 10 ^ (digits + 1) + 1 / 2⌋) digits h1
  unfold renderFfQ
  refine ⟨h, ?_, ?_⟩
  · rw [h]
    exact padLeftZeros_length (natToDigitChars_length digits _ hdiv h1)
  · rw [h]
    exact padLeftZeros_digits (natToDigitChars_digits _) digits

/-- Witness for C5 at `v = 355/113`, `D = 3`: the hypotheses hold and the
theorem applies; the extracted string is the 3-digit zero-padded decimal of
`⌊355/113 · 10⁴ + 1/2⌋ mod 10⁴ / 10 = 141`. -/
theorem claim_C5_witness :
    (0 ≤ (355 / 113 : ℚ)) ∧ (1 ≤ 3) ∧
    (extractFromChars (renderFfQ (355 / 113 : ℚ) (3 + 1)) 3 =
      padLeftZeros (natToDigitChars
        (Int.toNat ⌊(355 / 113 : ℚ) * 10 ^ (3 + 1) + 1 / 2⌋ % 10 ^ (3 + 1) / 10)) 3 ∧
    (extractFromChars (renderFfQ (355 / 113 : ℚ) (3 + 1)) 3).length = 3 ∧
    ∀ c ∈ extractFromChars (renderFfQ (355 / 113 : ℚ) (3 + 1)) 3, c.isDigit = true) :=
  ⟨by norm_num, by norm_num, claim_C5 (355 / 113) 3 (by norm_num) (by norm_num)⟩

/-- C6 (counterexample): the claim that the configured working precision
equals `ceil(D · log₂ 10) + margin` for a fixed margin of at least 10,000
bits is false: at `D = 1` the code configures `⌊1 · 3.322⌋ + 10000 = 10003`
bits while `ceil(log₂ 10) = 4`, so the implied margin is `9999 < 10000`
(and the implied margin is not even constant in `D`). -/
theorem claim_C6_counterexample :
    ¬ ∃ margin : ℕ, 10000 ≤ margin ∧
      ∀ digits : ℕ, 1 ≤ digits → digits ≤ MAX_DIGITS →
        precBits digits = Nat.clog 2 (10 ^ digits) + margin := by
  rintro ⟨margin, hm, hall⟩
  have h1 := hall 1 (le_refl 1) (by norm_num [MAX_DIGITS])
  rw [pow_one, clog_two_ten] at h1
  have hp : precBits 1 = 10003 := by norm_num [precBits]
  omega

/-- C6 (amended): the working precision configured before the kernel runs is
`⌊D · 3.322⌋ + 10000` bits (with `3.322` a slight over-approximation of
`log₂ 10`); it exceeds `ceil(D · log₂ 10)` by at least 9999 bits for every
digit count, but that margin is neither fixed nor always at least 10,000. -/
theorem claim_C6_amended :
    ∀ digits : ℕ, Nat.clog 2 (10 ^ digits) + 9999 ≤ precBits digits := by
  intro digits
  have h1 := clog_ten_pow_le digits
  unfold precBits
  omega

/-- C7 (counterexample): requesting cancellation mid-computation (the
`keep_running` flag cleared by the `SIGINT` handler) does not make
`calculate_pi_digits` return a distinguishable `Cancelled` outcome: the
kernel never reads the flag, so the call with the flag cleared is identical
to the undisturbed call and still returns the full 20-digit success. -/
theorem claim_C7_counterexample :
    Gauss.calculate_pi_digits false true true 20 = Gauss.calculate_pi_digits true true true 20 ∧
    (Gauss.calculate_pi_digits false true true 20).ret = 20 ∧
    (Gauss.calculate_pi_digits false true true 20).output =
      some "14159265358979323846".toList := by
  refine ⟨rfl, ?_, ?_⟩
  · rw [gauss_call_eq false 20 (by norm_num) (by norm_num [MAX_DIGITS])]
  · rw [gauss_call_eq false 20 (by norm_num) (by norm_num [MAX_DIGITS])]
    simpa using gauss_output_20

/-- C7 (amended): `SIGINT` makes `signal_handler` clear the global
`keep_running` flag, but the iterative kernel never checks it: the result of
`calculate_pi_digits` is independent of the flag, the computation always
runs to completion, and on the success path it returns the full requested
digit count — never a shorter or partial string, and never a distinguishable
`Cancelled` outcome.  Only the surrounding keep-mode loop in `main` observes
the flag, between whole computations. -/
theorem claim_C7_amended :
    (∀ keepRunning : Bool, signal_handler 2 keepRunning = false) ∧
    (∀ (kr kr' resultValid mallocOk : Bool) (digits : ℕ),
      Gauss.calculate_pi_digits kr resultValid mallocOk digits =
        Gauss.calculate_pi_digits kr' resultValid mallocOk digits) ∧
    (∀ (kr : Bool) (digits : ℕ), 1 ≤ digits → digits ≤ MAX_DIGITS →
      (Gauss.calculate_pi_digits kr true true digits).ret = digits) := by
  refine ⟨fun keepRunning => rfl, fun kr kr' rv mk d => rfl, fun kr d h1 h2 => ?_⟩
  rw [gauss_call_eq kr d (by omega) (fun hlt => absurd (lt_of_le_of_lt h2 hlt) (lt_irrefl _))]

/-- Witness for C7 (amended) at `D = 20`: the handler clears the flag, the
call with the flag cleared equals the undisturbed call, and the returned
count is the requested 20. -/
theorem claim_C7_amended_witness :
    signal_handler 2 true = false ∧
    Gauss.calculate_pi_digits false true true 20 = Gauss.calculate_pi_digits true true true 20 ∧
    (1 ≤ 20) ∧ (20 ≤ MAX_DIGITS) ∧
    (Gauss.calculate_pi_digits true true true 20).ret = 20 :=
  ⟨claim_C7_amended.1 true, claim_C7_amended.2.1 false true true true 20,
    by norm_num, by norm_num [MAX_DIGITS],
    claim_C7_amended.2.2 true 20 (by norm_num) (by norm_num [MAX_DIGITS])⟩

/-- C8: for `D = 0` or `D` above the configured maximum of 10,000,000, both
variants of `calculate_pi_digits` fail (return 0 digits computed) before any
numeric work: no working precision is configured, no `mpf_t` variable is
initialised, and no output is produced. -/
theorem claim_C8 (digits : ℕ) (h : digits = 0 ∨ MAX_DIGITS < digits) :
    Machin.calculate_pi_digits true true digits =
      { ret := 0, output := none, precSet := none, inited := [], cleared := [] } ∧
    Gauss.calculate_pi_digits true true true digits =
      { ret := 0, output := none, precSet := none, inited := [], cleared := [] } := by
  constructor
  · unfold Machin.calculate_pi_digits
    rw [if_pos (Or.inr h)]
  · unfold Gauss.calculate_pi_digits
    rw [if_pos (Or.inr h)]

/-- Witness for C8 at `D = 10,000,001` (one above the maximum): the
hypothesis holds and both calls return the empty failure outcome. -/
theorem claim_C8_witness :
    ((10000001 : ℕ) = 0 ∨ MAX_DIGITS < 10000001) ∧
    (Machin.calculate_pi_digits true true 10000001 =
      { ret := 0, output := none, precSet := none, inited := [], cleared := [] } ∧
    Gauss.calculate_pi_digits true true true 10000001 =
      { ret := 0, output := none, precSet := none, inited := [], cleared := [] }) :=
  ⟨by norm_num [MAX_DIGITS], claim_C8 10000001 (by norm_num [MAX_DIGITS])⟩

/-- C9: if the output-buffer allocation at the extraction step fails, every
previously initialised `mpf_t` variable of the call is cleared exactly once
(the cleared list equals the initialised list, which has no duplicates: nine
variables in the series variant, ten in the iterative variant) and the call
reports failure with zero digits computed. -/
theorem claim_C9 (digits : ℕ) (h1 : 1 ≤ digits) (h2 : digits ≤ MAX_DIGITS) :
    Machin.calculate_pi_digits true false digits =
      { ret := 0, output := none, precSet := some (precBits digits),
        inited := Machin.mpfVars, cleared := Machin.mpfVars } ∧
    Gauss.calculate_pi_digits true true false digits =
      { ret := 0, output := none, precSet := some (precBits digits),
        inited := Gauss.mpfVars, cleared := Gauss.mpfVars } ∧
    Machin.mpfVars.Nodup ∧ Machin.mpfVars.length = 9 ∧
    Gauss.mpfVars.Nodup ∧ Gauss.mpfVars.length = 10 := by
  have hcond : ¬ (true = false ∨ digits = 0 ∨ MAX_DIGITS < digits) := by
    simp only [MAX_DIGITS] at h2 ⊢
    push_neg
    exact ⟨by simp, by omega, by omega⟩
  refine ⟨?_, ?_, by decide, by decide, by decide, by decide⟩
  · unfold Machin.calculate_pi_digits
    rw [if_neg hcond, if_pos rfl]
  · unfold Gauss.calculate_pi_digits
    rw [if_neg hcond, if_pos rfl]

/-- Witness for C9 at `D = 20`: the hypotheses hold and the theorem
applies. -/
theorem claim_C9_witness :
    (1 ≤ 20) ∧ (20 ≤ MAX_DIGITS) ∧
    (Machin.calculate_pi_digits true false 20 =
      { ret := 0, output := none, precSet := some (precBits 20),
        inited := Machin.mpfVars, cleared := Machin.mpfVars } ∧
    Gauss.calculate_pi_digits true true false 20 =
      { ret := 0, output := none, precSet := some (precBits 20),
        inited := Gauss.mpfVars, cleared := Gauss.mpfVars } ∧
    Machin.mpfVars.Nodup ∧ Machin.mpfVars.length = 9 ∧
    Gauss.mpfVars.Nodup ∧ Gauss.mpfVars.length = 10) :=
  ⟨by norm_num, by norm_num [MAX_DIGITS],
    claim_C9 20 (by norm_num) (by norm_num [MAX_DIGITS])⟩

/-- C10: calling `calculate_pi_digits` with a null result out-pointer
returns 0 and performs no work at all, in both variants: the working
precision is not changed, no `mpf_t` variable is initialised, and no output
buffer is produced — regardless of the requested digit count, the allocation
behaviour, and (for the iterative variant) the cancellation flag. -/
theorem claim_C10 :
    ∀ (digits : ℕ) (mallocOk keepRunning : Bool),
      Machin.calculate_pi_digits false mallocOk digits =
        { ret := 0, output := none, precSet := none, inited := [], cleared := [] } ∧
      Gauss.calculate_pi_digits keepRunning false mallocOk digits =
        { ret := 0, output := none, precSet := none, inited := [], cleared := [] } := by
  intro digits mallocOk keepRunning
  constructor
  · unfold Machin.calculate_pi_digits
    rw [if_pos (Or.inl rfl)]
  · unfold Gauss.calculate_pi_digits
    rw [if_pos (Or.inl rfl)]
